import Mathlib

/-
  Verification development for the FoodBuddy API gateway.

  The definitions below are a shallow embedding of the gateway's Go code:
  - token issue/validate (controller generateToken + middleware/jwt.go),
  - the middleware chain and route table (route/route.go, cmd/main.go),
  - the per-IP rate limiter (utils RateLimitMiddleware),
  - the restaurant product-mutation handlers with their ownership gate
    (controller/restaurantController.go),
  - the user login handler's downstream error path (controller/userController.go),
  - the per-call deadlines of the downstream RPC invocations.

  Machine integers are modelled as Nat/Int (no overflow is relevant to any
  property below), timestamps as Int Unix seconds, and the symmetric JWT
  signature as an idealized MAC: the tag is the pair (secret, payload) and
  verification compares tags, which models exactly "signature verifies under
  the configured secret".
-/

/- ----------------------------------------------------------------- -/
/- Roles (middleware/jwt.go role constants)                           -/
/- ----------------------------------------------------------------- -/

def roleAdmin : String := "admin"

def roleUser : String := "user"

def roleRestaurant : String := "restaurant"

/-- Closed set of roles issued by the gateway's three token generators. -/
inductive Role
  | user
  | restaurant
  | admin
deriving DecidableEq, Repr

def Role.toStr : Role → String
  | Role.user => roleUser
  | Role.restaurant => roleRestaurant
  | Role.admin => roleAdmin

/- ----------------------------------------------------------------- -/
/- Token codec (controller generateToken + golang-jwt parsing)        -/
/- ----------------------------------------------------------------- -/

/-- The claims embedded by generateToken: jwt.MapClaims with id, role,
exp = now + 24h, created = now (controller/userController.go:129-138 and the
identical restaurant/admin versions). -/
structure TokenPayload where
  id : String
  role : String
  exp : Int
  created : Int
deriving DecidableEq, Repr

/-- Signing algorithm of a presented token: the HMAC family used by the
gateway (HS256) or anything else, which the keyfunc in jwt.go:63 rejects. -/
inductive SigAlg
  | hs256
  | nonHmac
deriving DecidableEq, Repr

/-- Idealized symmetric MAC: the tag determines (and is determined by) the
signing secret and the signed payload. -/
def hmacTag (secret : String) (p : TokenPayload) : String × TokenPayload :=
  (secret, p)

/-- A structurally well-formed signed token as seen after base64/JSON
decoding: payload, algorithm header, and signature tag. -/
structure SignedToken where
  payload : TokenPayload
  alg : SigAlg
  tag : String × TokenPayload
deriving DecidableEq, Repr

/-- generateToken: one definition for the three textually identical Go
functions (user/restaurant/admin controllers) that differ only in the role
constant they embed.  exp = now + 24h, signed HS256 under the secret. -/
def generateToken (secret : String) (role : Role) (id : String) (now : Int) :
    SignedToken :=
  let p : TokenPayload :=
    { id := id, role := role.toStr, exp := now + 24 * 3600, created := now }
  { payload := p, alg := SigAlg.hs256, tag := hmacTag secret p }

inductive ParseErr
  | badAlg
  | badSignature
  | tokenExpired
deriving DecidableEq, Repr

/-- jwt.ParseWithClaims as configured in middleware/jwt.go:61-68: the keyfunc
rejects non-HMAC algorithms, the library verifies the signature under the
configured secret, and the v5 registered-claims validator rejects the token
unless the validation time is strictly before exp. -/
def parseWithClaims (secret : String) (now : Int) (tok : SignedToken) :
    Except ParseErr TokenPayload :=
  if tok.alg = SigAlg.hs256 then
    if tok.tag = hmacTag secret tok.payload then
      if now < tok.payload.exp then Except.ok tok.payload
      else Except.error ParseErr.tokenExpired
    else Except.error ParseErr.badSignature
  else Except.error ParseErr.badAlg

/-- The Authorization header as the middleware case-splits on it:
absent, present without the Bearer scheme, Bearer followed by a string that
does not decode to a token, or Bearer followed by a decodable token. -/
inductive AuthHeaderInput
  | missing
  | noBearer
  | bearerGarbage
  | bearerToken (tok : SignedToken)
deriving DecidableEq, Repr

/-- The five exits of JWTAuthMiddleware (middleware/jwt.go:35-95), named by
the JSON message each one writes; contextSet is the success path that stores
id and role in the request context and calls c.Next(). -/
inductive AuthOutcome
  | headerRequired
  | invalidTokenFormat
  | invalidOrExpired
  | tokenHasExpired
  | contextSet (id : String) (role : String)
deriving DecidableEq, Repr

/-- JWTAuthMiddleware: header checks, ParseWithClaims, then the handler's own
expiry re-check (time.Now().Unix() > claims.ExpiresAt.Unix()), then storing
(id, role) into the context. -/
def jwtAuthMiddleware (secret : String) (now : Int) :
    AuthHeaderInput → AuthOutcome
  | AuthHeaderInput.missing => AuthOutcome.headerRequired
  | AuthHeaderInput.noBearer => AuthOutcome.invalidTokenFormat
  | AuthHeaderInput.bearerGarbage => AuthOutcome.invalidOrExpired
  | AuthHeaderInput.bearerToken tok =>
      match parseWithClaims secret now tok with
      | Except.error _ => AuthOutcome.invalidOrExpired
      | Except.ok p =>
          if now > p.exp then AuthOutcome.tokenHasExpired
          else AuthOutcome.contextSet p.id p.role

/- ----------------------------------------------------------------- -/
/- Rate limiter (utils RateLimitMiddleware)                           -/
/- ----------------------------------------------------------------- -/

/-- const apiRate = 3. -/
def apiRate : Nat := 3

/-- const resetInterval = time.Minute, in seconds. -/
def resetIntervalSecs : Nat := 60

/-- const ttl = 3 * time.Minute, in seconds. -/
def ttlSecs : Nat := 180

/-- The per-IP Visitor record: request count and last-seen time. -/
structure Visitor where
  requests : Nat
  lastSeen : Int
deriving DecidableEq, Repr

/-- The visitors map, as an association list, together with the multiset of
reset timers currently scheduled (one goroutine per accepted request). -/
structure RLState where
  visitors : List (String × Visitor)
  pendingResets : List String
deriving DecidableEq, Repr

def rlInit : RLState := { visitors := [], pendingResets := [] }

def lookupVisitor : List (String × Visitor) → String → Option Visitor
  | [], _ => none
  | p :: rest, ip => if p.1 = ip then some p.2 else lookupVisitor rest ip

def setVisitor : List (String × Visitor) → String → Visitor → List (String × Visitor)
  | [], ip, v => [(ip, v)]
  | p :: rest, ip, v =>
      if p.1 = ip then (ip, v) :: rest else p :: setVisitor rest ip v

/-- The read-modify-write performed under the mutex: create the entry with
requests = 1, or increment requests and refresh lastSeen. -/
def nextVisitor (s : RLState) (ip : String) (now : Int) : Visitor :=
  match lookupVisitor s.visitors ip with
  | none => { requests := 1, lastSeen := now }
  | some w => { requests := w.requests + 1, lastSeen := now }

/-- One execution of the rate-limit handler for a request from ip at time
now: update the visitor entry, then reject with 429 when the updated count
exceeds apiRate (returning before c.Next(), so no reset timer is spawned);
otherwise pass the request on and spawn a reset timer for this ip.
Returns the new state and whether the request was passed on. -/
def rateLimitRequest (s : RLState) (ip : String) (now : Int) : RLState × Bool :=
  let v := nextVisitor s ip now
  let vs := setVisitor s.visitors ip v
  if v.requests > apiRate then
    ({ visitors := vs, pendingResets := s.pendingResets }, false)
  else
    ({ visitors := vs, pendingResets := ip :: s.pendingResets }, true)

def removeOne : List String → String → List String
  | [], _ => []
  | x :: rest, ip => if x = ip then rest else x :: removeOne rest ip

/-- The body of one reset goroutine firing resetInterval after an accepted
request: zero the counter for its ip when the entry still exists with a
positive count. -/
def resetFire (s : RLState) (ip : String) : RLState :=
  let vs :=
    match lookupVisitor s.visitors ip with
    | some w =>
        if w.requests > 0 then
          setVisitor s.visitors ip { requests := 0, lastSeen := w.lastSeen }
        else s.visitors
    | none => s.visitors
  { visitors := vs, pendingResets := removeOne s.pendingResets ip }

/-- One tick of the background cleanup goroutine: evict entries whose
last-seen time is more than ttl in the past. -/
def sweepVisitors (s : RLState) (now : Int) : RLState :=
  { visitors :=
      s.visitors.filter (fun p => decide (now - p.2.lastSeen ≤ (ttlSecs : Int))),
    pendingResets := s.pendingResets }

/-- The state after k requests from a single address starting from the unseen
state, with no reset timer firing and no sweep in between (all within one
reset window). -/
def runSameIpRequests (ip : String) (now : Int) : Nat → RLState
  | 0 => rlInit
  | k + 1 => (rateLimitRequest (runSameIpRequests ip now k) ip now).1

/-- Whether request number k + 1 (zero-based k) of that run is passed on. -/
def acceptedNth (ip : String) (now : Int) (k : Nat) : Bool :=
  (rateLimitRequest (runSameIpRequests ip now k) ip now).2

/- ----------------------------------------------------------------- -/
/- Middleware chain and route table (cmd/main.go, route/route.go)     -/
/- ----------------------------------------------------------------- -/

/-- The middlewares that exist in the codebase.  ginLogger and ginRecovery
come from gin.Default() in main.go; rateLimit is utils.RateLimitMiddleware;
the rest are the four auth middlewares of middleware/jwt.go. -/
inductive MW
  | ginLogger
  | ginRecovery
  | rateLimit
  | jwtAuth
  | userAuth
  | restaurantAuth
  | adminAuth
deriving DecidableEq, Repr, BEq

/-- Request-scoped context: the Authorization header and the id/role slots
populated by c.Set in JWTAuthMiddleware. -/
structure ReqCtx where
  header : AuthHeaderInput
  ctxId : Option String
  ctxRole : Option String
deriving DecidableEq, Repr

/-- An aborted chain: the status class and JSON message written before
c.Abort(). -/
inductive AbortKind
  | unauthorizedJson (msg : String)
  | forbiddenJson (msg : String)
  | tooManyRequests
deriving DecidableEq, Repr

/-- One middleware execution: either abort with a response, or pass the
(possibly updated) context to the next element of the chain.  The rate
limiter additionally threads its visitor-table state. -/
def runMW (secret : String) (now : Int) (ip : String) (m : MW) (s : RLState)
    (c : ReqCtx) : RLState × Except AbortKind ReqCtx :=
  match m with
  | MW.ginLogger => (s, Except.ok c)
  | MW.ginRecovery => (s, Except.ok c)
  | MW.rateLimit =>
      let r := rateLimitRequest s ip now
      (r.1, if r.2 then Except.ok c else Except.error AbortKind.tooManyRequests)
  | MW.jwtAuth =>
      match jwtAuthMiddleware secret now c.header with
      | AuthOutcome.headerRequired =>
          (s, Except.error (AbortKind.unauthorizedJson "Authorization header is required"))
      | AuthOutcome.invalidTokenFormat =>
          (s, Except.error (AbortKind.unauthorizedJson "Invalid token format"))
      | AuthOutcome.invalidOrExpired =>
          (s, Except.error (AbortKind.unauthorizedJson "Invalid or expired token"))
      | AuthOutcome.tokenHasExpired =>
          (s, Except.error (AbortKind.unauthorizedJson "Token has expired"))
      | AuthOutcome.contextSet i r =>
          (s, Except.ok { header := c.header, ctxId := some i, ctxRole := some r })
  | MW.userAuth =>
      match c.ctxRole with
      | none => (s, Except.error (AbortKind.unauthorizedJson "Role information not found"))
      | some r =>
          if r = roleUser then (s, Except.ok c)
          else (s, Except.error (AbortKind.forbiddenJson "User access required"))
  | MW.restaurantAuth =>
      match c.ctxRole with
      | none => (s, Except.error (AbortKind.unauthorizedJson "Role information not found"))
      | some r =>
          if r = roleRestaurant then (s, Except.ok c)
          else (s, Except.error (AbortKind.forbiddenJson "Restaurant access required"))
  | MW.adminAuth =>
      match c.ctxRole with
      | none => (s, Except.error (AbortKind.unauthorizedJson "Role information not found"))
      | some r =>
          if r = roleAdmin then (s, Except.ok c)
          else (s, Except.error (AbortKind.forbiddenJson "Admin access required"))

/-- Run a middleware chain left to right, short-circuiting on the first
abort (gin's c.Abort / return). -/
def runChain (secret : String) (now : Int) (ip : String) :
    List MW → RLState → ReqCtx → RLState × Except AbortKind ReqCtx
  | [], s, c => (s, Except.ok c)
  | m :: rest, s, c =>
      match runMW secret now ip m s c with
      | (s2, Except.ok c2) => runChain secret now ip rest s2 c2
      | (s2, Except.error a) => (s2, Except.error a)

/-- True when a request clears the whole middleware chain and the route's
handler runs. -/
def reachesHandler (r : RLState × Except AbortKind ReqCtx) : Bool :=
  match r.2 with
  | Except.ok _ => true
  | Except.error _ => false

/-- A registered route: method, path, the group middleware chain it
inherits, and its handler function. -/
structure Route where
  method : String
  path : String
  chain : List MW
  handler : String
deriving DecidableEq, Repr, BEq

/-- gin.Default() installs Logger and Recovery; main.go registers no other
engine-level middleware (in particular it never mounts
utils.RateLimitMiddleware). -/
def globalChain : List MW := [MW.ginLogger, MW.ginRecovery]

/-- The /admin/users group of SetupUserRoutes (route/route.go:64-72).  The
line admin.Use(JWTAuthMiddleware(), AdminAuthMiddleware()) is commented out
in the source, so the group chain is empty. -/
def adminUsersRoutes : List Route :=
  [ { method := "GET", path := "/admin/users", chain := [], handler := "GetAllUsers" },
    { method := "POST", path := "/admin/users/ban", chain := [], handler := "BanUser" },
    { method := "POST", path := "/admin/users/unban", chain := [], handler := "UnBanUser" },
    { method := "GET", path := "/admin/users/check-ban", chain := [], handler := "CheckBan" } ]

/-- The full route table registered by InitializeServiceRoutes:
SetupUserRoutes, SetupRestaurantRoutes and SetUpAdminAuth. -/
def gatewayRoutes : List Route :=
  [ { method := "POST", path := "/auth/user/signup", chain := [], handler := "Signup" },
    { method := "POST", path := "/auth/user/login", chain := [], handler := "Login" },
    { method := "POST", path := "/auth/user/verify-email", chain := [], handler := "VerifyEmail" },
    { method := "GET", path := "/api/users/profile/:userId",
      chain := [MW.jwtAuth, MW.userAuth], handler := "GetProfile" },
    { method := "PUT", path := "/api/users/profile",
      chain := [MW.jwtAuth, MW.userAuth], handler := "UpdateProfile" },
    { method := "POST", path := "/api/users/address/",
      chain := [MW.jwtAuth, MW.userAuth], handler := "AddAddress" },
    { method := "GET", path := "/api/users/address/",
      chain := [MW.jwtAuth, MW.userAuth], handler := "GetAddresses" },
    { method := "PUT", path := "/api/users/address/",
      chain := [MW.jwtAuth, MW.userAuth], handler := "EditAddress" },
    { method := "DELETE", path := "/api/users/address/",
      chain := [MW.jwtAuth, MW.userAuth], handler := "DeleteAddress" } ]
  ++ adminUsersRoutes ++
  [ { method := "POST", path := "/auth/restaurant/signup", chain := [], handler := "RestaurantSignup" },
    { method := "POST", path := "/auth/restaurant/login", chain := [], handler := "RestaurantLogin" },
    { method := "PUT", path := "/api/restaurants/profile",
      chain := [MW.jwtAuth, MW.restaurantAuth], handler := "EditRestaurant" },
    { method := "POST", path := "/api/restaurants/products",
      chain := [MW.jwtAuth, MW.restaurantAuth], handler := "AddProduct" },
    { method := "PUT", path := "/api/restaurants/products",
      chain := [MW.jwtAuth, MW.restaurantAuth], handler := "EditProduct" },
    { method := "DELETE", path := "/api/restaurants/products",
      chain := [MW.jwtAuth, MW.restaurantAuth], handler := "DeleteProductByID" },
    { method := "PUT", path := "/api/restaurants/products/stock/increment",
      chain := [MW.jwtAuth, MW.restaurantAuth], handler := "IncrementProductStock" },
    { method := "PUT", path := "/api/restaurants/products/stock/decrement",
      chain := [MW.jwtAuth, MW.restaurantAuth], handler := "DecrementProductStock" },
    { method := "PUT", path := "/api/restaurants/admin/products",
      chain := [MW.jwtAuth, MW.adminAuth], handler := "EditProduct" },
    { method := "DELETE", path := "/api/restaurants/admin/products",
      chain := [MW.jwtAuth, MW.adminAuth], handler := "DeleteProductByID" },
    { method := "PUT", path := "/api/restaurants/admin/products/stock/increment",
      chain := [MW.jwtAuth, MW.adminAuth], handler := "IncrementProductStock" },
    { method := "PUT", path := "/api/restaurants/admin/products/stock/decrement",
      chain := [MW.jwtAuth, MW.adminAuth], handler := "DecrementProductStock" },
    { method := "POST", path := "/api/restaurants/admin/ban",
      chain := [MW.jwtAuth, MW.adminAuth], handler := "BanRestaurant" },
    { method := "POST", path := "/api/restaurants/admin/unban",
      chain := [MW.jwtAuth, MW.adminAuth], handler := "UnbanRestaurant" },
    { method := "GET", path := "/api/public/restaurants", chain := [],
      handler := "GetAllRestaurantWithProducts" },
    { method := "GET", path := "/api/public/restaurants/products", chain := [],
      handler := "GetRestaurantProductsByID" },
    { method := "GET", path := "/api/public/restaurants/products/single", chain := [],
      handler := "GetProductByID" },
    { method := "GET", path := "/api/public/restaurants/products/stock", chain := [],
      handler := "GetStockByProductID" },
    { method := "GET", path := "/api/public/restaurants/id", chain := [],
      handler := "GetRestaurantIDviaProductID" },
    { method := "POST", path := "/admin/login", chain := [], handler := "AdminLogin" } ]

/- ----------------------------------------------------------------- -/
/- Product mutation handlers (controller/restaurantController.go)     -/
/- ----------------------------------------------------------------- -/

/-- strings.TrimSpace(s) == "": true exactly when every character of s is
whitespace. -/
def strBlank (s : String) : Bool :=
  s.data.all (fun c => c.isWhitespace)

/-- Fields of restaurantPb.EditProductRequest read by the handler.  The
protobuf price is a float; only its sign is ever inspected, so Int is an
exact model here. -/
structure EditProductReq where
  productId : String
  restaurantId : String
  name : String
  price : Int
  stock : Int
deriving DecidableEq, Repr

structure DeleteProductReq where
  productId : String
  restaurantId : String
deriving DecidableEq, Repr

structure IncrementStockReq where
  productId : String
  value : Int
deriving DecidableEq, Repr

structure DecrementStockReq where
  productId : String
  value : Int
deriving DecidableEq, Repr

/-- Result of a product-mutation handler after a successful JSON bind:
either one of the early error responses, or the downstream mutation RPC is
invoked with the given request. -/
inductive MutOutcome (α : Type)
  | unauthorized
  | lookupFailed (e : String)
  | notOwner
  | badRequest (msg : String)
  | callMutation (req : α)
deriving DecidableEq, Repr

/-- Field validation section of EditProduct (lines 467-489). -/
def editProductChecks (req : EditProductReq) : MutOutcome EditProductReq :=
  if strBlank req.productId then MutOutcome.badRequest "Product ID is required"
  else if strBlank req.name then MutOutcome.badRequest "Product name is required"
  else if req.price ≤ 0 then MutOutcome.badRequest "Price must be greater than 0"
  else if req.stock < 0 then MutOutcome.badRequest "Stock cannot be negative"
  else MutOutcome.callMutation req

/-- Field validation section of DeleteProductByID (lines 546-550). -/
def deleteProductChecks (req : DeleteProductReq) : MutOutcome DeleteProductReq :=
  if strBlank req.productId then MutOutcome.badRequest "Product ID is required"
  else MutOutcome.callMutation req

/-- Field validation section of IncrementProductStock (lines 621-631). -/
def incrementStockChecks (req : IncrementStockReq) : MutOutcome IncrementStockReq :=
  if strBlank req.productId then MutOutcome.badRequest "Product ID is required"
  else if req.value ≤ 0 then MutOutcome.badRequest "Increment value must be greater than 0"
  else MutOutcome.callMutation req

/-- Field validation section of DecrementProductStock (lines 686-696). -/
def decrementStockChecks (req : DecrementStockReq) : MutOutcome DecrementStockReq :=
  if strBlank req.productId then MutOutcome.badRequest "Product ID is required"
  else if req.value ≤ 0 then MutOutcome.badRequest "Decrement value must be greater than 0"
  else MutOutcome.callMutation req

/-- EditProduct (lines 421-499) after ShouldBindJSON succeeded.  ctxRole and
ctxId are the context slots read via GetEntityRole/GetEntityID; lookup is
the downstream GetRestaurantIDviaProductID call, applied to the request's
product id. -/
def editProductHandler (ctxRole ctxId : Option String)
    (lookup : String → Except String String) (req0 : EditProductReq) :
    MutOutcome EditProductReq :=
  match ctxRole with
  | none => MutOutcome.unauthorized
  | some role =>
      if role ≠ roleAdmin then
        match ctxId with
        | none => MutOutcome.unauthorized
        | some restaurantID =>
            match lookup req0.productId with
            | Except.error e => MutOutcome.lookupFailed e
            | Except.ok prid =>
                if prid ≠ restaurantID then MutOutcome.notOwner
                else editProductChecks { req0 with restaurantId := restaurantID }
      else editProductChecks req0

/-- DeleteProductByID (lines 501-560) after ShouldBindJSON succeeded. -/
def deleteProductHandler (ctxRole ctxId : Option String)
    (lookup : String → Except String String) (req0 : DeleteProductReq) :
    MutOutcome DeleteProductReq :=
  match ctxRole with
  | none => MutOutcome.unauthorized
  | some role =>
      if role ≠ roleAdmin then
        match ctxId with
        | none => MutOutcome.unauthorized
        | some restaurantID =>
            match lookup req0.productId with
            | Except.error e => MutOutcome.lookupFailed e
            | Except.ok prid =>
                if prid ≠ restaurantID then MutOutcome.notOwner
                else deleteProductChecks { req0 with restaurantId := restaurantID }
      else deleteProductChecks req0

/-- IncrementProductStock (lines 578-641) after ShouldBindJSON succeeded.
Unlike edit/delete, the non-admin branch does not write the caller's id into
the request. -/
def incrementStockHandler (ctxRole ctxId : Option String)
    (lookup : String → Except String String) (req0 : IncrementStockReq) :
    MutOutcome IncrementStockReq :=
  match ctxRole with
  | none => MutOutcome.unauthorized
  | some role =>
      if role ≠ roleAdmin then
        match ctxId with
        | none => MutOutcome.unauthorized
        | some restaurantID =>
            match lookup req0.productId with
            | Except.error e => MutOutcome.lookupFailed e
            | Except.ok prid =>
                if prid ≠ restaurantID then MutOutcome.notOwner
                else incrementStockChecks req0
      else incrementStockChecks req0

/-- DecrementProductStock (lines 643-706) after ShouldBindJSON succeeded. -/
def decrementStockHandler (ctxRole ctxId : Option String)
    (lookup : String → Except String String) (req0 : DecrementStockReq) :
    MutOutcome DecrementStockReq :=
  match ctxRole with
  | none => MutOutcome.unauthorized
  | some role =>
      if role ≠ roleAdmin then
        match ctxId with
        | none => MutOutcome.unauthorized
        | some restaurantID =>
            match lookup req0.productId with
            | Except.error e => MutOutcome.lookupFailed e
            | Except.ok prid =>
                if prid ≠ restaurantID then MutOutcome.notOwner
                else decrementStockChecks req0
      else decrementStockChecks req0

/-- The request passes EditProduct's field validation. -/
def editFieldsOk (req : EditProductReq) : Bool :=
  !strBlank req.productId && !strBlank req.name &&
    decide (0 < req.price) && decide (0 ≤ req.stock)

/-- The request passes DeleteProductByID's field validation. -/
def deleteFieldsOk (req : DeleteProductReq) : Bool :=
  !strBlank req.productId

/-- The request passes IncrementProductStock's field validation. -/
def incrementFieldsOk (req : IncrementStockReq) : Bool :=
  !strBlank req.productId && decide (0 < req.value)

/-- The request passes DecrementProductStock's field validation. -/
def decrementFieldsOk (req : DecrementStockReq) : Bool :=
  !strBlank req.productId && decide (0 < req.value)

/- ----------------------------------------------------------------- -/
/- User login downstream error path (controller/userController.go)    -/
/- ----------------------------------------------------------------- -/

/-- model.ErrFailedGenerateToken: message constant of the model package (its
definition file is not part of src; its exact text is immaterial to every
property below). -/
def errFailedGenerateToken : String := "Failed to generate token"

/-- model.ErrLoginFailed, likewise a model-package message constant. -/
def errLoginFailed : String := "Login failed"

/-- The downstream user-service login response fields the handler reads. -/
structure UserLoginResp where
  userId : String
deriving DecidableEq, Repr

/-- How the Login handler terminates after its bind and validation steps. -/
inductive LoginOutcome
  | internalError (message errField : String)
  | nilDerefPanic
  | okJson (message token : String)
deriving DecidableEq, Repr

/-- Login, lines 175-205, starting at the downstream UserLogin call.  The Go
code is, in order:

  resp, err := uc.userClient.UserLogin(...)
  resp.Token, err = uc.generateToken(resp.UserId)
  if err != nil then 500 ErrFailedGenerateToken
  if err != nil then 500 ErrLoginFailed
  200 success

The downstream error is never examined before resp is dereferenced: a gRPC
stub returns a nil response pointer together with a non-nil error, so on
downstream failure resp.UserId dereferences nil and the handler panics;
moreover err is overwritten by the token-generation error, making the
second check dead.  downstream is the RPC result, tokenGen the
generateToken call. -/
def loginAfterValidation (downstream : Except String UserLoginResp)
    (tokenGen : String → Except String String) : LoginOutcome :=
  match downstream with
  | Except.error _ => LoginOutcome.nilDerefPanic
  | Except.ok resp =>
      match tokenGen resp.userId with
      | Except.error e => LoginOutcome.internalError errFailedGenerateToken e
      | Except.ok tok => LoginOutcome.okJson "Login successful" tok

/- ----------------------------------------------------------------- -/
/- Downstream RPC call sites and their context deadlines              -/
/- ----------------------------------------------------------------- -/

/-- One downstream RPC invocation in a controller: which controller and
handler it appears in, the RPC called, and the deadline (in seconds) carried
by the context passed to it — some 10 for context.WithTimeout(...,
10*time.Second), none for context.Background(). -/
structure RpcCallSite where
  controller : String
  handler : String
  rpc : String
  deadlineSecs : Option Nat
deriving DecidableEq, Repr, BEq

/-- Every downstream RPC call expression in the four controllers, with the
deadline of the context it receives, transcribed from the source. -/
def gatewayCallSites : List RpcCallSite :=
  [ { controller := "orderCart", handler := "AddProductToCart",
      rpc := "AddProductToCart", deadlineSecs := some 10 },
    { controller := "orderCart", handler := "GetCartItems",
      rpc := "GetCartItems", deadlineSecs := some 10 },
    { controller := "orderCart", handler := "GetAllCarts",
      rpc := "GetAllCarts", deadlineSecs := some 10 },
    { controller := "orderCart", handler := "IncrementProductQuantity",
      rpc := "IncrementProductQuantity", deadlineSecs := some 10 },
    { controller := "orderCart", handler := "DecrementProductQuantity",
      rpc := "DecrementProductQuantity", deadlineSecs := some 10 },
    { controller := "orderCart", handler := "RemoveProductFromCart",
      rpc := "RemoveProductFromCart", deadlineSecs := some 10 },
    { controller := "orderCart", handler := "ClearCart",
      rpc := "ClearCart", deadlineSecs := some 10 },
    { controller := "orderCart", handler := "PlaceOrderByRestID",
      rpc := "ValidateUserAddress", deadlineSecs := some 10 },
    { controller := "orderCart", handler := "PlaceOrderByRestID",
      rpc := "GetRestaurantByID", deadlineSecs := some 10 },
    { controller := "orderCart", handler := "PlaceOrderByRestID",
      rpc := "PlaceOrderByRestID", deadlineSecs := some 10 },
    { controller := "orderCart", handler := "GetOrderDetailsAll",
      rpc := "GetOrderDetailsAll", deadlineSecs := some 10 },
    { controller := "orderCart", handler := "GetOrderDetailsByID",
      rpc := "GetOrderDetailsByID", deadlineSecs := some 10 },
    { controller := "orderCart", handler := "CancelOrder",
      rpc := "CancelOrder", deadlineSecs := some 10 },
    { controller := "orderCart", handler := "UpdateOrderStatus",
      rpc := "UpdateOrderStatus", deadlineSecs := some 10 },
    { controller := "orderCart", handler := "GetRestaurantOrders",
      rpc := "GetRestaurantOrders", deadlineSecs := some 10 },
    { controller := "orderCart", handler := "ConfirmOrder",
      rpc := "ConfirmOrder", deadlineSecs := some 10 },
    { controller := "user", handler := "Login",
      rpc := "UserLogin", deadlineSecs := none },
    { controller := "user", handler := "Signup",
      rpc := "UserSignup", deadlineSecs := none },
    { controller := "user", handler := "GetProfile",
      rpc := "GetProfile", deadlineSecs := none },
    { controller := "user", handler := "UpdateProfile",
      rpc := "UpdateProfile", deadlineSecs := none },
    { controller := "user", handler := "VerifyEmail",
      rpc := "VerifyEmail", deadlineSecs := none },
    { controller := "user", handler := "GetUserByToken",
      rpc := "GetUserByToken", deadlineSecs := none },
    { controller := "user", handler := "AddAddress",
      rpc := "AddAddress", deadlineSecs := none },
    { controller := "user", handler := "GetAddresses",
      rpc := "GetAddresses", deadlineSecs := none },
    { controller := "user", handler := "EditAddress",
      rpc := "EditAddress", deadlineSecs := none },
    { controller := "user", handler := "DeleteAddress",
      rpc := "DeleteAddress", deadlineSecs := none },
    { controller := "user", handler := "BanUser",
      rpc := "BanUser", deadlineSecs := none },
    { controller := "user", handler := "UnBanUser",
      rpc := "UnBanUser", deadlineSecs := none },
    { controller := "user", handler := "CheckBan",
      rpc := "CheckBan", deadlineSecs := none },
    { controller := "user", handler := "GetAllUsers",
      rpc := "GetAllUsers", deadlineSecs := none },
    { controller := "restaurant", handler := "RestaurantSignup",
      rpc := "RestaurantSignup", deadlineSecs := none },
    { controller := "restaurant", handler := "RestaurantLogin",
      rpc := "RestaurantLogin", deadlineSecs := none },
    { controller := "restaurant", handler := "EditRestaurant",
      rpc := "EditRestaurant", deadlineSecs := none },
    { controller := "restaurant", handler := "GetRestaurantProductsByID",
      rpc := "GetRestaurantProductsByID", deadlineSecs := none },
    { controller := "restaurant", handler := "GetAllRestaurantWithProducts",
      rpc := "GetAllRestaurantWithProducts", deadlineSecs := none },
    { controller := "restaurant", handler := "AddProduct",
      rpc := "AddProduct", deadlineSecs := none },
    { controller := "restaurant", handler := "EditProduct",
      rpc := "GetRestaurantIDviaProductID", deadlineSecs := none },
    { controller := "restaurant", handler := "EditProduct",
      rpc := "EditProduct", deadlineSecs := none },
    { controller := "restaurant", handler := "DeleteProductByID",
      rpc := "GetRestaurantIDviaProductID", deadlineSecs := none },
    { controller := "restaurant", handler := "DeleteProductByID",
      rpc := "DeleteProductByID", deadlineSecs := none },
    { controller := "restaurant", handler := "GetProductByID",
      rpc := "GetProductByID", deadlineSecs := none },
    { controller := "restaurant", handler := "IncrementProductStock",
      rpc := "GetRestaurantIDviaProductID", deadlineSecs := none },
    { controller := "restaurant", handler := "IncrementProductStock",
      rpc := "IncremenentProductStockByValue", deadlineSecs := none },
    { controller := "restaurant", handler := "DecrementProductStock",
      rpc := "GetRestaurantIDviaProductID", deadlineSecs := none },
    { controller := "restaurant", handler := "DecrementProductStock",
      rpc := "DecrementProductStockByValue", deadlineSecs := none },
    { controller := "restaurant", handler := "BanRestaurant",
      rpc := "BanRestaurant", deadlineSecs := none },
    { controller := "restaurant", handler := "UnbanRestaurant",
      rpc := "UnbanRestaurant", deadlineSecs := none },
    { controller := "restaurant", handler := "GetRestaurantIDviaProductID",
      rpc := "GetRestaurantIDviaProductID", deadlineSecs := none },
    { controller := "restaurant", handler := "GetStockByProductID",
      rpc := "GetStockByProductID", deadlineSecs := none },
    { controller := "admin", handler := "AdminLogin",
      rpc := "AdminLogin", deadlineSecs := none } ]

/-- The GET /admin/users route as registered (empty group chain). -/
def adminUsersListRoute : Route :=
  { method := "GET", path := "/admin/users", chain := [], handler := "GetAllUsers" }

/-- The UserSignup call site of the user Signup handler
(userController.go:293): the context passed is context.Background(). -/
def signupCallSite : RpcCallSite :=
  { controller := "user", handler := "Signup", rpc := "UserSignup",
    deadlineSecs := none }

/- ----------------------------------------------------------------- -/
/- Concrete inputs used by the witness theorems                       -/
/- ----------------------------------------------------------------- -/

/-- A token signed under secret s6 for user u6 at time 0 (expiry 86400). -/
def tokW6 : SignedToken := generateToken "s6" Role.user "u6" 0

/-- A downstream ownership lookup that owns product p1 to restaurant r2 and
fails for every other product id. -/
def c1LookupW : String → Except String String :=
  fun pid => if pid = "p1" then Except.ok "r2" else Except.error "lookup failed"

def c1EditReqW : EditProductReq :=
  { productId := "p1", restaurantId := "", name := "Dosa", price := 5, stock := 2 }

def c1DelReqW : DeleteProductReq := { productId := "p1", restaurantId := "" }

def c1IncReqW : IncrementStockReq := { productId := "p1", value := 4 }

def c1DecReqW : DecrementStockReq := { productId := "p1", value := 4 }

def c2Lookup1 : String → Except String String := fun _ => Except.error "down"

def c2Lookup2 : String → Except String String := fun _ => Except.ok "other"

def c2EditReqW : EditProductReq :=
  { productId := "p2", restaurantId := "r7", name := "Idli", price := 3, stock := 0 }

def c2DelReqW : DeleteProductReq := { productId := "p2", restaurantId := "r7" }

def c2IncReqW : IncrementStockReq := { productId := "p2", value := 1 }

def c2DecReqW : DecrementStockReq := { productId := "p2", value := 1 }

/-- A visitor table in which address 9.9.9.9 has already made 3 requests. -/
def rlW : RLState :=
  { visitors := [("9.9.9.9", { requests := 3, lastSeen := 0 })], pendingResets := [] }

/- ----------------------------------------------------------------- -/
/- Helper lemmas                                                      -/
/- ----------------------------------------------------------------- -/

theorem parse_generateToken (secret : String) (role : Role) (id : String)
    (now0 now : Int) :
    parseWithClaims secret now (generateToken secret role id now0) =
      if now < now0 + 24 * 3600 then
        Except.ok { id := id, role := role.toStr, exp := now0 + 24 * 3600, created := now0 }
      else Except.error ParseErr.tokenExpired := by
  simp [parseWithClaims, generateToken, hmacTag]

theorem parse_ok_exp (secret : String) (now : Int) (tok : SignedToken)
    (p : TokenPayload) (h : parseWithClaims secret now tok = Except.ok p) :
    now < tok.payload.exp ∧ p = tok.payload := by
  unfold parseWithClaims at h
  split_ifs at h with h1 h2 h3
  injection h with hh
  exact ⟨h3, hh.symm⟩

theorem lookupVisitor_set (vs : List (String × Visitor)) (ip : String) (v : Visitor) :
    lookupVisitor (setVisitor vs ip v) ip = some v := by
  induction vs with
  | nil => simp [setVisitor, lookupVisitor]
  | cons p rest ih =>
      by_cases h : p.1 = ip
      · simp [setVisitor, lookupVisitor, h]
      · simp [setVisitor, lookupVisitor, h, ih]

theorem visitors_step (s : RLState) (ip : String) (now : Int) :
    ((rateLimitRequest s ip now).1).visitors =
      setVisitor s.visitors ip (nextVisitor s ip now) := by
  simp only [rateLimitRequest]
  split_ifs <;> rfl

theorem rl_snd (s : RLState) (ip : String) (now : Int) :
    (rateLimitRequest s ip now).2 =
      decide ((nextVisitor s ip now).requests ≤ apiRate) := by
  simp only [rateLimitRequest]
  split_ifs with h
  · simp
    omega
  · simp
    omega

theorem rl_pending (s : RLState) (ip : String) (now : Int) :
    ((rateLimitRequest s ip now).1).pendingResets =
      if (nextVisitor s ip now).requests > apiRate then s.pendingResets
      else ip :: s.pendingResets := by
  simp only [rateLimitRequest]
  split_ifs <;> rfl

theorem lookup_runSameIp (ip : String) (now : Int) (k : Nat) :
    lookupVisitor (runSameIpRequests ip now k).visitors ip =
      if k = 0 then none else some { requests := k, lastSeen := now } := by
  induction k with
  | zero => simp [runSameIpRequests, rlInit, lookupVisitor]
  | succ k ih =>
      have hnext : nextVisitor (runSameIpRequests ip now k) ip now =
          { requests := k + 1, lastSeen := now } := by
        unfold nextVisitor
        rw [ih]
        by_cases hk : k = 0
        · subst hk; simp
        · simp [hk]
      show lookupVisitor
          ((rateLimitRequest (runSameIpRequests ip now k) ip now).1).visitors ip = _
      rw [visitors_step, lookupVisitor_set, hnext]
      simp

theorem nextVisitor_runSameIp (ip : String) (now : Int) (k : Nat) :
    nextVisitor (runSameIpRequests ip now k) ip now =
      { requests := k + 1, lastSeen := now } := by
  unfold nextVisitor
  rw [lookup_runSameIp]
  by_cases hk : k = 0
  · subst hk; simp
  · simp [hk]

/- ----------------------------------------------------------------- -/
/- Claim theorems                                                     -/
/- ----------------------------------------------------------------- -/

/-- Claim C5: a token issued by the gateway's token generation for any
entity identifier and any role, presented to the JWT authentication
middleware before its 24-hour expiry and under the same signing secret, is
accepted and stores exactly the original identifier and role in the request
context. -/
theorem c5_token_roundtrip (secret id : String) (role : Role) (now0 nowV : Int)
    (h : nowV < now0 + 24 * 3600) :
    jwtAuthMiddleware secret nowV
        (AuthHeaderInput.bearerToken (generateToken secret role id now0)) =
      AuthOutcome.contextSet id role.toStr := by
  have h3 : nowV < now0 + 86400 := by omega
  have h4 : ¬ (now0 + 86400 < nowV) := by omega
  simp [jwtAuthMiddleware, parse_generateToken, h3, h4]

/-- Witness for c5_token_roundtrip: a restaurant token issued at time 0 and
validated at time 100 under secret k5 yields its id and role unchanged. -/
theorem c5_witness :
    jwtAuthMiddleware "k5" 100
        (AuthHeaderInput.bearerToken (generateToken "k5" Role.restaurant "r9" 0)) =
      AuthOutcome.contextSet "r9" "restaurant" :=
  c5_token_roundtrip "k5" "r9" Role.restaurant 0 100 (by norm_num)

/-- Claim C6 counterexample: a token with valid signature whose expiry
(86400) is in the past at validation time (100000) is rejected by the
generic parse-failure response, not by the distinct 'Token has expired'
outcome the claim requires. -/
theorem c6_expired_counterexample :
    jwtAuthMiddleware "secret0" 100000
        (AuthHeaderInput.bearerToken (generateToken "secret0" Role.user "u1" 0)) =
        AuthOutcome.invalidOrExpired
      ∧ AuthOutcome.invalidOrExpired ≠ AuthOutcome.tokenHasExpired :=
  ⟨by decide, by decide⟩

/-- Claim C6 amended: a token whose embedded expiry is in the past at
validation time is rejected with a 401, but through the generic
parse-failure response (jwt v5 validates expiry during parsing), regardless
of signature validity; the middleware's dedicated 'Token has expired'
response is unreachable for every input. -/
theorem c6_expired_generic_rejection (secret : String) (now : Int)
    (tok : SignedToken) (h : tok.payload.exp < now) :
    jwtAuthMiddleware secret now (AuthHeaderInput.bearerToken tok) =
        AuthOutcome.invalidOrExpired
      ∧ ∀ inp : AuthHeaderInput,
        jwtAuthMiddleware secret now inp ≠ AuthOutcome.tokenHasExpired := by
  constructor
  · cases hq : parseWithClaims secret now tok with
    | ok p =>
        have := (parse_ok_exp secret now tok p hq).1
        omega
    | error e => simp [jwtAuthMiddleware, hq]
  · intro inp
    cases inp with
    | missing => simp [jwtAuthMiddleware]
    | noBearer => simp [jwtAuthMiddleware]
    | bearerGarbage => simp [jwtAuthMiddleware]
    | bearerToken tok2 =>
        cases hq : parseWithClaims secret now tok2 with
        | error e => simp [jwtAuthMiddleware, hq]
        | ok p =>
            obtain ⟨hlt, hpp⟩ := parse_ok_exp secret now tok2 p hq
            have hng : ¬ (now > p.exp) := by
              subst hpp
              omega
            simp [jwtAuthMiddleware, hq, hng]

/-- Witness for c6_expired_generic_rejection: the token signed under s6
with expiry 86400, validated at 90000, gets the generic rejection. -/
theorem c6_witness :
    jwtAuthMiddleware "s6" 90000 (AuthHeaderInput.bearerToken tokW6) =
      AuthOutcome.invalidOrExpired :=
  (c6_expired_generic_rejection "s6" 90000 tokW6 (by decide)).1

/-- Claim C7: starting from the unseen state, a single address making N ≤ 3
requests within one reset window (no reset fires in between) has every one
of them passed by the Rate Limiter, and the fourth request within the same
window is rejected.  acceptedNth ip now k is the fate of request k + 1. -/
theorem c7_rate_limit_threshold (ip : String) (now : Int) (N : Nat)
    (h : N ≤ 3) :
    (∀ k, k < N → acceptedNth ip now k = true) ∧
      acceptedNth ip now 3 = false := by
  have key : ∀ k, acceptedNth ip now k = decide (k + 1 ≤ apiRate) := by
    intro k
    unfold acceptedNth
    rw [rl_snd, nextVisitor_runSameIp]
  constructor
  · intro k hk
    rw [key]
    have hle : k + 1 ≤ apiRate := by
      unfold apiRate
      omega
    simp [hle]
  · rw [key]
    decide

/-- Witness for c7_rate_limit_threshold at N = 3: the first three requests
of an address pass and the fourth is rejected. -/
theorem c7_witness :
    acceptedNth "198.51.100.9" 0 0 = true ∧ acceptedNth "198.51.100.9" 0 1 = true ∧
      acceptedNth "198.51.100.9" 0 2 = true ∧ acceptedNth "198.51.100.9" 0 3 = false :=
  ⟨(c7_rate_limit_threshold "198.51.100.9" 0 3 (by norm_num)).1 0 (by norm_num),
   (c7_rate_limit_threshold "198.51.100.9" 0 3 (by norm_num)).1 1 (by norm_num),
   (c7_rate_limit_threshold "198.51.100.9" 0 3 (by norm_num)).1 2 (by norm_num),
   (c7_rate_limit_threshold "198.51.100.9" 0 3 (by norm_num)).2⟩

/-- Claim C10: in the Rate Limiter, every request from an address updates
that address's entry to count + 1 (1 when unseen) with last-seen refreshed,
including requests that are then rejected; the pending reset timers are
unchanged by a rejected request and extended by an accepted one; and once an
address's count has reached the threshold, a further request is rejected and
leaves the count at or above the threshold, so consecutive over-limit
requests keep being rejected until a scheduled reset or the sweep
intervenes. -/
theorem c10_visitor_counter_invariants (s : RLState) (ip : String) (now : Int) :
    (∀ w, lookupVisitor s.visitors ip = some w →
        lookupVisitor ((rateLimitRequest s ip now).1).visitors ip =
          some { requests := w.requests + 1, lastSeen := now })
  ∧ (lookupVisitor s.visitors ip = none →
        lookupVisitor ((rateLimitRequest s ip now).1).visitors ip =
          some { requests := 1, lastSeen := now })
  ∧ ((rateLimitRequest s ip now).2 = false →
        ((rateLimitRequest s ip now).1).pendingResets = s.pendingResets)
  ∧ ((rateLimitRequest s ip now).2 = true →
        ((rateLimitRequest s ip now).1).pendingResets = ip :: s.pendingResets)
  ∧ (∀ w, lookupVisitor s.visitors ip = some w → apiRate ≤ w.requests →
        (rateLimitRequest s ip now).2 = false ∧
          lookupVisitor ((rateLimitRequest s ip now).1).visitors ip =
            some { requests := w.requests + 1, lastSeen := now } ∧
          apiRate ≤ w.requests + 1) := by
  refine ⟨?_, ?_, ?_, ?_, ?_⟩
  · intro w hw
    rw [visitors_step, lookupVisitor_set]
    unfold nextVisitor
    rw [hw]
  · intro hw
    rw [visitors_step, lookupVisitor_set]
    unfold nextVisitor
    rw [hw]
  · intro hf
    rw [rl_snd] at hf
    simp only [decide_eq_false_iff_not, Nat.not_le] at hf
    rw [rl_pending, if_pos hf]
  · intro ht
    rw [rl_snd] at ht
    simp only [decide_eq_true_eq] at ht
    rw [rl_pending, if_neg (by omega)]
  · intro w hw hge
    have hnv : nextVisitor s ip now = { requests := w.requests + 1, lastSeen := now } := by
      unfold nextVisitor
      rw [hw]
    refine ⟨?_, ?_, by omega⟩
    · rw [rl_snd, hnv]
      simp only [decide_eq_false_iff_not, Nat.not_le]
      unfold apiRate at hge ⊢
      omega
    · rw [visitors_step, lookupVisitor_set, hnv]

/-- Witness for c10_visitor_counter_invariants: an address that has already
made 3 requests makes a fourth; it is rejected, its entry still advances to
count 4 with refreshed last-seen, and no reset timer is added. -/
theorem c10_witness :
    (rateLimitRequest rlW "9.9.9.9" 50).2 = false
  ∧ lookupVisitor ((rateLimitRequest rlW "9.9.9.9" 50).1).visitors "9.9.9.9" =
      some { requests := 4, lastSeen := 50 }
  ∧ ((rateLimitRequest rlW "9.9.9.9" 50).1).pendingResets = [] := by
  have h := c10_visitor_counter_invariants rlW "9.9.9.9" 50
  have h5 := h.2.2.2.2 { requests := 3, lastSeen := 0 } (by decide) (by decide)
  exact ⟨h5.1, h5.2.1, h.2.2.1 h5.1⟩

theorem editChecks_ok (req : EditProductReq) (h : editFieldsOk req = true) :
    editProductChecks req = MutOutcome.callMutation req := by
  unfold editFieldsOk at h
  simp only [Bool.and_eq_true, Bool.not_eq_true', decide_eq_true_eq] at h
  obtain ⟨⟨⟨h1, h2⟩, h3⟩, h4⟩ := h
  unfold editProductChecks
  rw [if_neg (by simp [h1]), if_neg (by simp [h2]), if_neg (by omega),
    if_neg (by omega)]

theorem deleteChecks_ok (req : DeleteProductReq) (h : deleteFieldsOk req = true) :
    deleteProductChecks req = MutOutcome.callMutation req := by
  unfold deleteFieldsOk at h
  simp only [Bool.not_eq_true'] at h
  unfold deleteProductChecks
  rw [if_neg (by simp [h])]

theorem incrementChecks_ok (req : IncrementStockReq)
    (h : incrementFieldsOk req = true) :
    incrementStockChecks req = MutOutcome.callMutation req := by
  unfold incrementFieldsOk at h
  simp only [Bool.and_eq_true, Bool.not_eq_true', decide_eq_true_eq] at h
  obtain ⟨h1, h2⟩ := h
  unfold incrementStockChecks
  rw [if_neg (by simp [h1]), if_neg (by omega)]

theorem decrementChecks_ok (req : DecrementStockReq)
    (h : decrementFieldsOk req = true) :
    decrementStockChecks req = MutOutcome.callMutation req := by
  unfold decrementFieldsOk at h
  simp only [Bool.and_eq_true, Bool.not_eq_true', decide_eq_true_eq] at h
  obtain ⟨h1, h2⟩ := h
  unfold decrementStockChecks
  rw [if_neg (by simp [h1]), if_neg (by omega)]

/-- Claim C1: for each product-mutation handler (edit, delete,
increment stock, decrement stock), a non-admin authenticated caller with
entity id rid gets: the lookup's error surfaced as the internal-error
response when the product-to-restaurant lookup fails; the forbidden
response (and no downstream mutation) when the lookup returns an owner
different from rid; and, when the lookup returns rid itself and the request
passes the handler's field validation, the downstream mutation call. -/
theorem c1_nonadmin_ownership_enforced (role rid : String)
    (hrole : role ≠ roleAdmin) (lookup : String → Except String String)
    (ereq : EditProductReq) (dreq : DeleteProductReq)
    (ireq : IncrementStockReq) (qreq : DecrementStockReq) :
    ( (∀ e, lookup ereq.productId = Except.error e →
          editProductHandler (some role) (some rid) lookup ereq =
            MutOutcome.lookupFailed e)
    ∧ (∀ prid, lookup ereq.productId = Except.ok prid → prid ≠ rid →
          editProductHandler (some role) (some rid) lookup ereq =
            MutOutcome.notOwner)
    ∧ (lookup ereq.productId = Except.ok rid →
          editFieldsOk { ereq with restaurantId := rid } = true →
          editProductHandler (some role) (some rid) lookup ereq =
            MutOutcome.callMutation { ereq with restaurantId := rid }) )
  ∧ ( (∀ e, lookup dreq.productId = Except.error e →
          deleteProductHandler (some role) (some rid) lookup dreq =
            MutOutcome.lookupFailed e)
    ∧ (∀ prid, lookup dreq.productId = Except.ok prid → prid ≠ rid →
          deleteProductHandler (some role) (some rid) lookup dreq =
            MutOutcome.notOwner)
    ∧ (lookup dreq.productId = Except.ok rid →
          deleteFieldsOk { dreq with restaurantId := rid } = true →
          deleteProductHandler (some role) (some rid) lookup dreq =
            MutOutcome.callMutation { dreq with restaurantId := rid }) )
  ∧ ( (∀ e, lookup ireq.productId = Except.error e →
          incrementStockHandler (some role) (some rid) lookup ireq =
            MutOutcome.lookupFailed e)
    ∧ (∀ prid, lookup ireq.productId = Except.ok prid → prid ≠ rid →
          incrementStockHandler (some role) (some rid) lookup ireq =
            MutOutcome.notOwner)
    ∧ (lookup ireq.productId = Except.ok rid →
          incrementFieldsOk ireq = true →
          incrementStockHandler (some role) (some rid) lookup ireq =
            MutOutcome.callMutation ireq) )
  ∧ ( (∀ e, lookup qreq.productId = Except.error e →
          decrementStockHandler (some role) (some rid) lookup qreq =
            MutOutcome.lookupFailed e)
    ∧ (∀ prid, lookup qreq.productId = Except.ok prid → prid ≠ rid →
          decrementStockHandler (some role) (some rid) lookup qreq =
            MutOutcome.notOwner)
    ∧ (lookup qreq.productId = Except.ok rid →
          decrementFieldsOk qreq = true →
          decrementStockHandler (some role) (some rid) lookup qreq =
            MutOutcome.callMutation qreq) ) := by
  refine ⟨⟨?_, ?_, ?_⟩, ⟨?_, ?_, ?_⟩, ⟨?_, ?_, ?_⟩, ⟨?_, ?_, ?_⟩⟩
  · intro e he
    simp [editProductHandler, hrole, he]
  · intro prid hp hne
    simp [editProductHandler, hrole, hp, hne]
  · intro hok hfields
    simp [editProductHandler, hrole, hok]
    exact editChecks_ok _ hfields
  · intro e he
    simp [deleteProductHandler, hrole, he]
  · intro prid hp hne
    simp [deleteProductHandler, hrole, hp, hne]
  · intro hok hfields
    simp [deleteProductHandler, hrole, hok]
    exact deleteChecks_ok _ hfields
  · intro e he
    simp [incrementStockHandler, hrole, he]
  · intro prid hp hne
    simp [incrementStockHandler, hrole, hp, hne]
  · intro hok hfields
    simp [incrementStockHandler, hrole, hok]
    exact incrementChecks_ok _ hfields
  · intro e he
    simp [decrementStockHandler, hrole, he]
  · intro prid hp hne
    simp [decrementStockHandler, hrole, hp, hne]
  · intro hok hfields
    simp [decrementStockHandler, hrole, hok]
    exact decrementChecks_ok _ hfields

/-- Witness for c1_nonadmin_ownership_enforced: caller r1 with role
restaurant editing product p1 owned by r2 is rejected as not the owner. -/
theorem c1_witness :
    editProductHandler (some "restaurant") (some "r1") c1LookupW c1EditReqW =
      MutOutcome.notOwner := by
  have h := c1_nonadmin_ownership_enforced "restaurant" "r1" (by decide)
    c1LookupW c1EditReqW c1DelReqW c1IncReqW c1DecReqW
  exact h.1.2.1 "r2" rfl (by decide)

/-- Claim C2: for each product-mutation handler, a caller whose context role
is admin triggers no product-to-restaurant lookup — the handler's result is
the same under every lookup oracle — and, when the request passes field
validation, the handler proceeds to the downstream mutation regardless of
which restaurant owns the product. -/
theorem c2_admin_bypasses_ownership (cid : Option String)
    (l1 l2 : String → Except String String)
    (ereq : EditProductReq) (dreq : DeleteProductReq)
    (ireq : IncrementStockReq) (qreq : DecrementStockReq) :
    ( editProductHandler (some roleAdmin) cid l1 ereq =
        editProductHandler (some roleAdmin) cid l2 ereq
    ∧ (editFieldsOk ereq = true →
        editProductHandler (some roleAdmin) cid l1 ereq =
          MutOutcome.callMutation ereq) )
  ∧ ( deleteProductHandler (some roleAdmin) cid l1 dreq =
        deleteProductHandler (some roleAdmin) cid l2 dreq
    ∧ (deleteFieldsOk dreq = true →
        deleteProductHandler (some roleAdmin) cid l1 dreq =
          MutOutcome.callMutation dreq) )
  ∧ ( incrementStockHandler (some roleAdmin) cid l1 ireq =
        incrementStockHandler (some roleAdmin) cid l2 ireq
    ∧ (incrementFieldsOk ireq = true →
        incrementStockHandler (some roleAdmin) cid l1 ireq =
          MutOutcome.callMutation ireq) )
  ∧ ( decrementStockHandler (some roleAdmin) cid l1 qreq =
        decrementStockHandler (some roleAdmin) cid l2 qreq
    ∧ (decrementFieldsOk qreq = true →
        decrementStockHandler (some roleAdmin) cid l1 qreq =
          MutOutcome.callMutation qreq) ) := by
  refine ⟨⟨?_, ?_⟩, ⟨?_, ?_⟩, ⟨?_, ?_⟩, ⟨?_, ?_⟩⟩
  · simp [editProductHandler]
  · intro h
    simp [editProductHandler]
    exact editChecks_ok _ h
  · simp [deleteProductHandler]
  · intro h
    simp [deleteProductHandler]
    exact deleteChecks_ok _ h
  · simp [incrementStockHandler]
  · intro h
    simp [incrementStockHandler]
    exact incrementChecks_ok _ h
  · simp [decrementStockHandler]
  · intro h
    simp [decrementStockHandler]
    exact decrementChecks_ok _ h

/-- Witness for c2_admin_bypasses_ownership: an admin edit of product p2
proceeds to the mutation even though its lookup oracle fails outright. -/
theorem c2_witness :
    editProductHandler (some roleAdmin) (some "rZ") c2Lookup1 c2EditReqW =
      MutOutcome.callMutation c2EditReqW :=
  ((c2_admin_bypasses_ownership (some "rZ") c2Lookup1 c2Lookup2 c2EditReqW
      c2DelReqW c2IncReqW c2DecReqW).1).2 (by decide)

/-- Claim C3 (code bug): the GET /admin/users route is registered with an
empty middleware chain — the admin.Use(JWTAuthMiddleware(),
AdminAuthMiddleware()) line is commented out in route.go — so a request
with no Authorization header at all clears the chain and reaches the
GetAllUsers handler; by contrast the nested /api/restaurants/admin group,
whose chain is [jwtAuth, adminAuth], rejects the same tokenless request. -/
theorem c3_admin_users_routes_unprotected :
    gatewayRoutes.contains adminUsersListRoute = true
  ∧ reachesHandler (runChain "jwtsecret" 0 "203.0.113.7"
        (globalChain ++ adminUsersListRoute.chain) rlInit
        { header := AuthHeaderInput.missing, ctxId := none, ctxRole := none }) = true
  ∧ reachesHandler (runChain "jwtsecret" 0 "203.0.113.7"
        (globalChain ++ [MW.jwtAuth, MW.adminAuth]) rlInit
        { header := AuthHeaderInput.missing, ctxId := none, ctxRole := none }) = false := by
  refine ⟨by decide, rfl, rfl⟩

/-- Claim C4 (code bug): main.go mounts no rate-limit middleware —
gin.Default() installs only Logger and Recovery and no route group uses
utils.RateLimitMiddleware — so no request is processed by the Rate Limiter
at all. -/
theorem c4_rate_limiter_not_mounted :
    globalChain.contains MW.rateLimit = false
  ∧ gatewayRoutes.all (fun r => !(r.chain.contains MW.rateLimit)) = true := by
  exact ⟨rfl, by decide⟩

/-- Claim C8 (code bug): when the downstream UserLogin RPC fails, the Login
handler dereferences the nil response (resp.UserId) before ever examining
the error, so it panics instead of returning the internal-error envelope
with the downstream message. -/
theorem c8_login_panics_on_downstream_error :
    loginAfterValidation (Except.error "rpc error: user service unavailable")
        (fun uid => Except.ok (String.append "token-" uid)) =
      LoginOutcome.nilDerefPanic := rfl

/-- Claim C9 counterexample: the Signup handler's UserSignup call — one of
the claim's own cited call sites — is made with context.Background(), which
carries no deadline, refuting the claim that every route's downstream RPC
runs under a 10-second deadline. -/
theorem c9_deadline_counterexample :
    gatewayCallSites.contains signupCallSite = true
  ∧ signupCallSite.deadlineSecs ≠ some 10 := by
  exact ⟨by decide, by decide⟩

/-- Claim C9 amended: the order/cart controller's downstream RPC calls all
carry a 10-second context deadline, while every downstream call of the
user, restaurant, and admin controllers uses context.Background() and so
carries no deadline at all. -/
theorem c9_deadlines_by_controller :
    gatewayCallSites.all
        (fun cs =>
          if cs.controller == "orderCart" then cs.deadlineSecs == some 10
          else cs.deadlineSecs == none) = true := by
  decide
